import Mathlib

/-!
Verification of the multi-source product reconciliation engine described in
the data-at-scale design document: schema harmonization, staged matching,
deterministic field merge, idempotent batch application, and the tiered
read path of the serving layer.  Each component is embedded shallowly:
Python dicts become association lists, sets become lists with membership,
exceptions become Except values, and undefined helper methods are either
abstracted as function parameters or, when the specification pins their
behaviour down, modelled from the specification (marked in the doc
comment of the definition).
-/

namespace AlphaBridge

/-! ## Schema harmonizer -/

/-- The SCHEMA_MAPPINGS configuration table from the design document.
Python dicts iterate in insertion order, so each dict is an association
list in the order written in the source. -/
def SCHEMA_MAPPINGS : List (String × List (String × String)) :=
  [("products_v1",
     [("product_id", "id"),
      ("product_name", "title"),
      ("cost", "price"),
      ("product_category", "category")]),
   ("items_v2",
     [("item_id", "id"),
      ("item_title", "title"),
      ("item_price", "price"),
      ("item_cat", "category")])]

/-- SchemaHarmonizer.harmonize_record.  The loop binds each mapping entry
as (target_field, source_field), copies record[source_field] through
transform_value when present, and silently skips the entry otherwise.
transform_value is not defined in the source; it is abstracted as a total
function parameter, exactly as the call site applies it. -/
def harmonize_record {α : Type} (transform_value : α → String → α)
    (record : List (String × α)) (source_schema : String) :
    List (String × α) :=
  let mapping := (SCHEMA_MAPPINGS.lookup source_schema).getD []
  mapping.foldl
    (fun harmonized p =>
      match record.lookup p.2 with
      | some v => harmonized ++ [(p.1, transform_value v p.1)]
      | none => harmonized)
    []

/-- Harmonizing a batch applies harmonize_record to each record
independently (one output per input record). -/
def harmonize_batch {α : Type} (transform_value : α → String → α)
    (source_schema : String) (records : List (List (String × α))) :
    List (List (String × α)) :=
  records.map (fun r => harmonize_record transform_value r source_schema)

/-- The value harmonize_record computes, written directly: the mapped
fields whose source_field is present in the record, in mapping order. -/
def harmonize_spec {α : Type} (transform_value : α → String → α)
    (record : List (String × α)) (source_schema : String) :
    List (String × α) :=
  ((SCHEMA_MAPPINGS.lookup source_schema).getD []).filterMap
    (fun p => (record.lookup p.2).map (fun v => (p.1, transform_value v p.1)))

/-! ## Serving layer (tiered read path) -/

/-- ProductServingLayer.get_product.  The cache holds (record, ttl seconds)
entries keyed by product id; the durable store holds records keyed by id.
Tier 1 is the cache: a hit returns the cached record unchanged.  Tier 2 is
the durable store: a hit there is cached for one hour (ttl 3600) before
being returned.  Neither tier holding the record yields none.  Returns the
result together with the (possibly repopulated) cache. -/
def get_product {ρ : Type} (redis_cache : List (Nat × (ρ × Nat)))
    (store : List (Nat × ρ)) (product_id : Nat) :
    Option ρ × List (Nat × (ρ × Nat)) :=
  match redis_cache.lookup product_id with
  | some cached => (some cached.1, redis_cache)
  | none =>
      match store.lookup product_id with
      | some product => (some product, (product_id, (product, 3600)) :: redis_cache)
      | none => (none, redis_cache)

/-! ## Idempotent batch coordinator -/

/-- The state of an IdempotentProcessor: the injected checkpoint storage
(an association list from batch_id to stored result) and the in-memory
processed_batches set (a list with membership). -/
structure IdempotentProcessor (ρ : Type) where
  checkpoint_storage : List (Nat × ρ)
  processed_batches : List Nat

/-- IdempotentProcessor.__init__: takes the checkpoint storage handle and
initializes processed_batches to the empty set. -/
def IdempotentProcessor.init {ρ : Type} (checkpoint_storage : List (Nat × ρ)) :
    IdempotentProcessor ρ :=
  ⟨checkpoint_storage, []⟩

/-- Modelled from the spec: get_cached_result is called but not defined in
the source; the specification says an already-checkpointed batch "returns
the stored result without reprocessing", so it reads the checkpoint stored
for batch_id (none when no checkpoint exists). -/
def get_cached_result {ρ : Type} (self : IdempotentProcessor ρ)
    (batch_id : Nat) : Option ρ :=
  self.checkpoint_storage.lookup batch_id

/-- checkpoint_storage.save_checkpoint(batch_id, result): records the
result for batch_id (newest entry shadows older ones). -/
def save_checkpoint {ρ : Type} (storage : List (Nat × ρ)) (batch_id : Nat)
    (result : ρ) : List (Nat × ρ) :=
  (batch_id, result) :: storage

/-- The observable outcome of one process_batch_idempotent call: the value
returned (or the exception propagated), the processor state afterwards, and
whether self.process_batch was invoked. -/
structure IdemOutcome (ε ρ : Type) where
  result : Except ε (Option ρ)
  state : IdempotentProcessor ρ
  invoked_process : Bool

/-- IdempotentProcessor.process_batch_idempotent.  If batch_id is in the
in-memory processed_batches set, returns the cached result without calling
process_batch.  Otherwise calls process_batch (abstracted as a parameter;
an exception it raises propagates before any state is written), then saves
a checkpoint and adds batch_id to processed_batches. -/
def process_batch_idempotent {β ε ρ : Type} (process_batch : β → Except ε ρ)
    (self : IdempotentProcessor ρ) (batch_id : Nat) (batch_data : β) :
    IdemOutcome ε ρ :=
  if batch_id ∈ self.processed_batches then
    ⟨.ok (get_cached_result self batch_id), self, false⟩
  else
    match process_batch batch_data with
    | .error e => ⟨.error e, self, true⟩
    | .ok result =>
        ⟨.ok (some result),
         ⟨save_checkpoint self.checkpoint_storage batch_id result,
          batch_id :: self.processed_batches⟩,
         true⟩

/-! ## Product deduplicator (staged matching) -/

/-- A harmonized product record as the matcher sees it: identity
(source_id, native_id), the normalized identity key (sku), and the title
attribute the fuzzy stage compares. -/
structure Product where
  source_id : String
  native_id : String
  sku : String
  title : String
deriving DecidableEq

/-- ProductDeduplicator.similarity_threshold, set to 0.85 in __init__. -/
def similarity_threshold : ℚ := 85 / 100

/-- All unordered candidate pairs of a batch, each taken once in batch
order. -/
def allPairs {α : Type} : List α → List (α × α)
  | [] => []
  | x :: l => l.map (fun y => (x, y)) ++ allPairs l

/-- Modelled from the spec: find_exact_matches is called but not defined in
the source; the exact stage is "equality on a configured identity key
(e.g., normalized SKU)" over the batch the method receives. -/
def find_exact_matches (products_batch : List Product) :
    List (Product × Product) :=
  (allPairs products_batch).filter (fun p => p.1.sku == p.2.sku)

/-- Modelled from the spec: find_fuzzy_matches is called but not defined in
the source; the fuzzy stage keeps a pair iff its combined string-similarity
score (the metric abstracted as the parameter sim) reaches the
similarity_threshold, over the batch the method receives. -/
def find_fuzzy_matches (sim : Product → Product → ℚ)
    (products_batch : List Product) : List (Product × Product) :=
  (allPairs products_batch).filter
    (fun p => decide (similarity_threshold ≤ sim p.1 p.2))

/-- Modelled from the spec: ml_entity_resolution is called but not defined
in the source; the probabilistic stage delegates each pair to the injected
scoring capability, and a scoring failure for a pair degrades gracefully to
that pair's fuzzy-stage result instead of failing the batch. -/
def ml_entity_resolution {ε : Type} (score : Product → Product → Except ε ℚ)
    (sim : Product → Product → ℚ) (products_batch : List Product) :
    List (Product × Product) :=
  (allPairs products_batch).filter
    (fun p =>
      match score p.1 p.2 with
      | .ok s => decide (similarity_threshold ≤ s)
      | .error _ => decide (similarity_threshold ≤ sim p.1 p.2))

/-- ProductDeduplicator.deduplicate_products: Stage 1 exact matches, Stage
2 fuzzy matches, Stage 3 ML entity resolution — each computed from the full
products_batch — then Stage 4 hands the three candidate lists to
create_master_records (abstracted as a parameter, since its body is not in
the source). -/
def deduplicate_products {ε α : Type}
    (create_master_records :
      List (Product × Product) → List (Product × Product) →
      List (Product × Product) → α)
    (sim : Product → Product → ℚ) (score : Product → Product → Except ε ℚ)
    (products_batch : List Product) : α :=
  let exact_matches := find_exact_matches products_batch
  let fuzzy_matches := find_fuzzy_matches sim products_batch
  let ml_matches := ml_entity_resolution score sim products_batch
  create_master_records exact_matches fuzzy_matches ml_matches

/-! ## Master-record field merge -/

/-- One contributing record of a cluster, as the provenance set records it:
identity (source_id, native_id), the configured source priority (1 is the
most trusted source), the observation time, and its canonical attributes. -/
structure Contribution where
  source_id : String
  native_id : String
  priority : Nat
  observed_at : Nat
  attributes : List (String × String)
deriving DecidableEq

/-- a is preferred to b by the field-merge policy: strictly higher
configured source priority (a numerically smaller priority value), or equal
priority and a strictly more recent observed_at. -/
def preferred (a b : Contribution) : Prop :=
  a.priority < b.priority ∨
    (a.priority = b.priority ∧ b.observed_at < a.observed_at)

instance (a b : Contribution) : Decidable (preferred a b) :=
  inferInstanceAs (Decidable (_ ∨ _))

/-- Fold over the remaining contributors keeping the preferred one, the
current best being the first argument. -/
def pick_best (c : Contribution) : List Contribution → Contribution
  | [] => c
  | x :: l => pick_best (if preferred x c then x else c) l

/-- Modelled from the spec: create_master_records is called but not defined
in the source; its field-merge policy is "for each canonical attribute,
pick the value from the contributing record with the highest configured
source priority; ties broken by most recent observed_at".  merge_field
computes one canonical attribute of the merged record from the cluster
contributors carrying that attribute. -/
def merge_field (cluster : List Contribution) (field : String) :
    Option String :=
  match cluster.filter (fun r => (r.attributes.lookup field).isSome) with
  | [] => none
  | c :: l => (pick_best c l).attributes.lookup field

/-! ## Helper lemmas -/

theorem harmonize_foldl_eq {α : Type} (transform_value : α → String → α)
    (record : List (String × α)) :
    ∀ (mapping : List (String × String)) (acc : List (String × α)),
      mapping.foldl
        (fun harmonized p =>
          match record.lookup p.2 with
          | some v => harmonized ++ [(p.1, transform_value v p.1)]
          | none => harmonized)
        acc
      = acc ++ mapping.filterMap
          (fun p => (record.lookup p.2).map
            (fun v => (p.1, transform_value v p.1))) := by
  intro mapping
  induction mapping with
  | nil => intro acc; simp
  | cons hd tl ih =>
      intro acc
      cases hlk : record.lookup hd.2 with
      | none => simp [List.foldl_cons, hlk, ih]
      | some v => simp [List.foldl_cons, hlk, ih]

theorem harmonize_record_eq_spec {α : Type} (transform_value : α → String → α)
    (record : List (String × α)) (source_schema : String) :
    harmonize_record transform_value record source_schema
      = harmonize_spec transform_value record source_schema := by
  unfold harmonize_record harmonize_spec
  simpa using harmonize_foldl_eq transform_value record _ []

theorem preferred_irrefl (a : Contribution) : ¬ preferred a a := by
  simp only [preferred]
  omega

theorem preferred_trans (a b c : Contribution) (hab : preferred a b)
    (hbc : preferred b c) : preferred a c := by
  simp only [preferred] at *
  omega

theorem preferred_neg_trans (x c r : Contribution) (hxr : preferred x r)
    (hxc : ¬ preferred x c) : preferred c r := by
  simp only [preferred] at *
  omega

theorem preferred_total_of_key_ne (a b : Contribution)
    (h : a.priority ≠ b.priority ∨ a.observed_at ≠ b.observed_at) :
    preferred a b ∨ preferred b a := by
  simp only [preferred]
  omega

theorem pick_best_mem (c : Contribution) (l : List Contribution) :
    pick_best c l ∈ c :: l := by
  induction l generalizing c with
  | nil => simp [pick_best]
  | cons x l ih =>
      rw [pick_best]
      rcases List.mem_cons.mp (ih (if preferred x c then x else c)) with h2 | h2
      · rw [h2]
        by_cases h : preferred x c
        · simp [h]
        · simp [h]
      · exact .tail _ (.tail _ h2)

theorem pick_best_max (c : Contribution) (l : List Contribution) :
    ∀ d ∈ c :: l, ¬ preferred d (pick_best c l) := by
  induction l generalizing c with
  | nil =>
      intro d hd
      simp only [List.mem_singleton] at hd
      subst hd
      exact preferred_irrefl d
  | cons x l ih =>
      intro d hd
      rw [pick_best]
      by_cases h : preferred x c
      · rw [if_pos h]
        rcases List.mem_cons.mp hd with h1 | h1
        · subst h1
          intro hcontra
          exact ih x x (.head _) (preferred_trans x d _ h hcontra)
        · rcases List.mem_cons.mp h1 with h2 | h2
          · exact h2 ▸ ih x x (.head _)
          · exact ih x d (.tail _ h2)
      · rw [if_neg h]
        rcases List.mem_cons.mp hd with h1 | h1
        · exact h1 ▸ ih c c (.head _)
        · rcases List.mem_cons.mp h1 with h2 | h2
          · subst h2
            intro hcontra
            exact ih c c (.head _) (preferred_neg_trans d c _ hcontra h)
          · exact ih c d (.tail _ h2)

theorem threshold_le_one : similarity_threshold ≤ (1 : ℚ) := by
  norm_num [similarity_threshold]

theorem pick_best_eq_of_perm (c c' : Contribution) (l l' : List Contribution)
    (hperm : (c :: l).Perm (c' :: l'))
    (hdist : ∀ a ∈ c :: l, ∀ b ∈ c :: l,
      a.priority = b.priority → a.observed_at = b.observed_at → a = b) :
    pick_best c l = pick_best c' l' := by
  by_contra hne
  have hx : pick_best c l ∈ c :: l := pick_best_mem c l
  have hy : pick_best c' l' ∈ c' :: l' := pick_best_mem c' l'
  have hy' : pick_best c' l' ∈ c :: l := hperm.symm.subset hy
  have hkey : (pick_best c l).priority ≠ (pick_best c' l').priority ∨
      (pick_best c l).observed_at ≠ (pick_best c' l').observed_at := by
    by_contra hk
    push_neg at hk
    exact hne (hdist _ hx _ hy' hk.1 hk.2)
  rcases preferred_total_of_key_ne _ _ hkey with h | h
  · exact pick_best_max c' l' _ (hperm.subset hx) h
  · exact pick_best_max c l _ hy' h

/-! ## Claim theorems -/

/-- C4: for every cluster, each canonical attribute of the merged record is
the value from the contributing record with the highest configured source
priority, ties broken by most recent observed_at; and given fixed
priority/timestamp values the merged attribute is identical across
different internal processing orders (any permutation of the cluster),
provided the tie-break is decisive (no two distinct contributors share both
priority and observed_at). -/
theorem merge_field_deterministic (cluster cluster' : List Contribution)
    (f : String) (hperm : cluster.Perm cluster')
    (hdist : ∀ a ∈ cluster, ∀ b ∈ cluster,
      a.priority = b.priority → a.observed_at = b.observed_at → a = b) :
    merge_field cluster f = merge_field cluster' f ∧
    ∀ v, merge_field cluster f = some v →
      ∃ r ∈ cluster, r.attributes.lookup f = some v ∧
        ∀ r' ∈ cluster, (r'.attributes.lookup f).isSome →
          ¬ preferred r' r := by
  have hfp : (cluster.filter (fun r => (r.attributes.lookup f).isSome)).Perm
      (cluster'.filter (fun r => (r.attributes.lookup f).isSome)) :=
    hperm.filter _
  constructor
  · cases h1 : cluster.filter (fun r => (r.attributes.lookup f).isSome) with
    | nil =>
        rw [h1] at hfp
        have h2 := hfp.symm.eq_nil
        simp [merge_field, h1, h2]
    | cons c l =>
        rw [h1] at hfp
        cases h2 : cluster'.filter (fun r => (r.attributes.lookup f).isSome) with
        | nil =>
            rw [h2] at hfp
            exact absurd hfp.eq_nil (by simp)
        | cons c' l' =>
            rw [h2] at hfp
            have hsub : ∀ a ∈ c :: l, a ∈ cluster := by
              intro a ha
              rw [← h1] at ha
              exact (List.mem_filter.mp ha).1
            have heq : pick_best c l = pick_best c' l' := by
              apply pick_best_eq_of_perm c c' l l' hfp
              intro a ha b hb
              exact hdist a (hsub a ha) b (hsub b hb)
            simp [merge_field, h1, h2, heq]
  · intro v hv
    cases h1 : cluster.filter (fun r => (r.attributes.lookup f).isSome) with
    | nil => simp [merge_field, h1] at hv
    | cons c l =>
        simp only [merge_field, h1] at hv
        refine ⟨pick_best c l, ?_, hv, ?_⟩
        · have := pick_best_mem c l
          rw [← h1] at this
          exact (List.mem_filter.mp this).1
        · intro r' hr' hsome
          apply pick_best_max c l
          rw [← h1]
          exact List.mem_filter.mpr ⟨hr', hsome⟩

/-- C1: submitting a batch twice with the same batch_id yields identical
resulting state: the first submission processes the batch and checkpoints
the result, after which the batch_id is committed (in processed_batches);
the second submission returns the stored result without invoking
process_batch and leaves the state unchanged, so a committed batch_id is
never reprocessed. -/
theorem resubmit_committed_batch_noop {β ε ρ : Type}
    (process_batch : β → Except ε ρ) (self : IdempotentProcessor ρ)
    (batch_id : Nat) (batch_data : β) (r : ρ)
    (hfresh : batch_id ∉ self.processed_batches)
    (hok : process_batch batch_data = .ok r) :
    (process_batch_idempotent process_batch self batch_id batch_data).result
      = .ok (some r) ∧
    (process_batch_idempotent process_batch self batch_id
        batch_data).invoked_process = true ∧
    (process_batch_idempotent process_batch
        (process_batch_idempotent process_batch self batch_id batch_data).state
        batch_id batch_data).result = .ok (some r) ∧
    (process_batch_idempotent process_batch
        (process_batch_idempotent process_batch self batch_id batch_data).state
        batch_id batch_data).state
      = (process_batch_idempotent process_batch self batch_id batch_data).state ∧
    (process_batch_idempotent process_batch
        (process_batch_idempotent process_batch self batch_id batch_data).state
        batch_id batch_data).invoked_process = false := by
  simp [process_batch_idempotent, hfresh, hok, get_cached_result,
    save_checkpoint, List.lookup]

/-- C1 witness: a concrete second submission is a cached no-op. -/
theorem resubmit_committed_batch_noop_witness :
    (7 ∉ (IdempotentProcessor.init ([] : List (Nat × Nat))).processed_batches) ∧
    ((fun n : Nat => (.ok (n + 1) : Except String Nat)) 3 = .ok 4) ∧
    ((process_batch_idempotent (fun n : Nat => (.ok (n + 1) : Except String Nat))
        (process_batch_idempotent (fun n : Nat => (.ok (n + 1) : Except String Nat))
          (IdempotentProcessor.init []) 7 3).state 7 3).result = .ok (some 4)) :=
  ⟨by decide, rfl,
    (resubmit_committed_batch_noop (fun n : Nat => (.ok (n + 1) : Except String Nat))
      (IdempotentProcessor.init []) 7 3 4 (by decide) rfl).2.2.1⟩

/-- C6 amended: any failure while a fresh batch is being processed
propagates with the processor state completely unchanged — no checkpoint
entry of any status is written for the batch_id and processed_batches does
not change — so the batch is reprocessed in full on retry. -/
theorem failure_leaves_state_unchanged {β ε ρ : Type}
    (process_batch : β → Except ε ρ) (self : IdempotentProcessor ρ)
    (batch_id : Nat) (batch_data : β) (e : ε)
    (hfresh : batch_id ∉ self.processed_batches)
    (herr : process_batch batch_data = .error e) :
    (process_batch_idempotent process_batch self batch_id batch_data).result
      = .error e ∧
    (process_batch_idempotent process_batch self batch_id batch_data).state
      = self := by
  simp [process_batch_idempotent, hfresh, herr]

/-- C6 amended witness: a concrete failing batch leaves the state as it
was. -/
theorem failure_leaves_state_unchanged_witness :
    (42 ∉ (IdempotentProcessor.init ([] : List (Nat × Nat))).processed_batches) ∧
    ((fun _ : Nat => (.error "store unreachable" : Except String Nat)) 0
      = .error "store unreachable") ∧
    (process_batch_idempotent
        (fun _ : Nat => (.error "store unreachable" : Except String Nat))
        (IdempotentProcessor.init []) 42 0).state
      = IdempotentProcessor.init [] :=
  ⟨by decide, rfl,
    (failure_leaves_state_unchanged
      (fun _ : Nat => (.error "store unreachable" : Except String Nat))
      (IdempotentProcessor.init []) 42 0 "store unreachable"
      (by decide) rfl).2⟩

/-- C6 as stated is false on the code: a failure during processing leaves
NO checkpoint for the batch_id (in particular none in a FAILED status — the
code has no checkpoint statuses at all); checkpoint storage still has no
entry for batch_id 42 after the failed run. -/
theorem failed_batch_has_no_failed_checkpoint_cex :
    (process_batch_idempotent
        (fun _ : Nat => (.error "store unreachable" : Except String Nat))
        (IdempotentProcessor.init []) 42 0).result
      = .error "store unreachable" ∧
    (process_batch_idempotent
        (fun _ : Nat => (.error "store unreachable" : Except String Nat))
        (IdempotentProcessor.init []) 42 0).state.checkpoint_storage.lookup 42
      = none ∧
    (process_batch_idempotent
        (fun _ : Nat => (.error "store unreachable" : Except String Nat))
        (IdempotentProcessor.init []) 42 0).state.processed_batches = [] :=
  ⟨rfl, rfl, rfl⟩

/-- C9: process_batch_idempotent takes the cached-result branch exactly
when batch_id is in the instance's in-memory processed_batches set, and a
freshly constructed IdempotentProcessor — whose processed_batches is
initialized empty regardless of what the injected checkpoint storage
already contains — invokes process_batch for every batch, including a
batch_id already checkpointed by a previous instance. -/
theorem fresh_processor_reprocesses {β ε ρ : Type}
    (process_batch : β → Except ε ρ) (storage : List (Nat × ρ))
    (batch_id : Nat) (batch_data : β) :
    (process_batch_idempotent process_batch (IdempotentProcessor.init storage)
        batch_id batch_data).invoked_process = true ∧
    ∀ self : IdempotentProcessor ρ,
      ((process_batch_idempotent process_batch self batch_id
          batch_data).invoked_process = false
        ↔ batch_id ∈ self.processed_batches) := by
  constructor
  · cases hp : process_batch batch_data <;>
      simp [process_batch_idempotent, IdempotentProcessor.init, hp]
  · intro self
    by_cases h : batch_id ∈ self.processed_batches
    · simp [process_batch_idempotent, h]
    · cases hp : process_batch batch_data <;>
        simp [process_batch_idempotent, h, hp]

/-- C8: get_product checks the cache first and on a hit returns the cached
record with the cache unchanged and a result independent of the durable
store; on a cache miss it falls through to the durable store and exactly
when the record is found there it repopulates the cache with ttl 3600
before returning it; when neither tier holds the record it returns none
with the cache unchanged. -/
theorem get_product_tiered_read {ρ : Type}
    (redis_cache : List (Nat × (ρ × Nat))) (store : List (Nat × ρ))
    (product_id : Nat) :
    (∀ r ttl, redis_cache.lookup product_id = some (r, ttl) →
      get_product redis_cache store product_id = (some r, redis_cache) ∧
      ∀ store₂ : List (Nat × ρ),
        get_product redis_cache store₂ product_id
          = get_product redis_cache store product_id) ∧
    (redis_cache.lookup product_id = none →
      (∀ r, store.lookup product_id = some r →
        get_product redis_cache store product_id
          = (some r, (product_id, (r, 3600)) :: redis_cache)) ∧
      (store.lookup product_id = none →
        get_product redis_cache store product_id = (none, redis_cache))) := by
  constructor
  · intro r ttl hhit
    refine ⟨by simp [get_product, hhit], ?_⟩
    intro store₂
    simp [get_product, hhit]
  · intro hmiss
    constructor
    · intro r hstore
      simp [get_product, hmiss, hstore]
    · intro hstore
      simp [get_product, hmiss, hstore]

/-- C8 witness: a concrete cache miss that hits the durable store and
repopulates the cache with ttl 3600. -/
theorem get_product_tiered_read_witness :
    (([] : List (Nat × (String × Nat))).lookup 5 = none) ∧
    ([(5, "widget")].lookup 5 = some "widget") ∧
    get_product ([] : List (Nat × (String × Nat))) [(5, "widget")] 5
      = (some "widget", [(5, ("widget", 3600))]) :=
  ⟨rfl, rfl,
    ((get_product_tiered_read ([] : List (Nat × (String × Nat)))
        [(5, "widget")] 5).2 rfl).1 "widget" rfl⟩

/-- C2 as stated is false on the code: a record missing every canonical
field (it carries only an unmapped stray field) is not quarantined and not
excluded from the batch — harmonize_batch still emits one (empty)
harmonized record for it; harmonize_record has no error outcome at all. -/
theorem missing_required_field_not_quarantined_cex :
    harmonize_batch (fun v _ => v) "products_v1" [[("stray_field", "x")]]
      = [[]] ∧
    (harmonize_batch (fun v _ => v) "products_v1"
        [[("stray_field", "x")]]).length = 1 := by
  constructor <;> rfl

/-- C2 amended: harmonization drops unknown source fields silently (every
harmonized key comes from the schema mapping) and a record missing mapped
fields is never quarantined: the missing fields are silently skipped and
the record still yields a harmonized output; records are harmonized
independently, so a malformed record anywhere in the batch leaves every
other record's output unaffected. -/
theorem harmonize_never_quarantines {α : Type}
    (transform_value : α → String → α) (source_schema : String)
    (pre post : List (List (String × α))) (bad : List (String × α)) :
    harmonize_batch transform_value source_schema (pre ++ bad :: post)
      = harmonize_batch transform_value source_schema pre
        ++ harmonize_record transform_value bad source_schema
          :: harmonize_batch transform_value source_schema post ∧
    ∀ (record : List (String × α)) (kv : String × α),
      kv ∈ harmonize_record transform_value record source_schema →
      kv.1 ∈ ((SCHEMA_MAPPINGS.lookup source_schema).getD []).map
        Prod.fst := by
  constructor
  · simp [harmonize_batch]
  · intro record kv hkv
    rw [harmonize_record_eq_spec] at hkv
    simp only [harmonize_spec, List.mem_filterMap, Option.map_eq_some'] at hkv
    obtain ⟨p, hp, v, _, hkveq⟩ := hkv
    subst hkveq
    exact List.mem_map.mpr ⟨p, hp, rfl⟩

/-- C2 amended witness: a batch holding one malformed record between two
well-formed ones harmonizes to one output per record, the malformed one
yielding the empty record; and a concrete harmonized key belongs to the
mapping. -/
theorem harmonize_never_quarantines_witness :
    harmonize_batch (fun v _ => v) "products_v1"
        ([[("id", "1")]] ++ [("stray_field", "x")] :: [[("id", "2")]])
      = harmonize_batch (fun v _ => v) "products_v1" [[("id", "1")]]
        ++ harmonize_record (fun v _ => v) [("stray_field", "x")] "products_v1"
          :: harmonize_batch (fun v _ => v) "products_v1" [[("id", "2")]] ∧
    (("product_id", "1") ∈
        harmonize_record (fun v _ => v) [("id", "1")] "products_v1" ∧
      ("product_id", "1").1 ∈
        ((SCHEMA_MAPPINGS.lookup "products_v1").getD []).map Prod.fst) :=
  ⟨(harmonize_never_quarantines (fun v _ => v) "products_v1"
      [[("id", "1")]] [[("id", "2")]] [("stray_field", "x")]).1,
    by decide,
    (harmonize_never_quarantines (fun v _ => v) "products_v1"
      [[("id", "1")]] [[("id", "2")]] [("stray_field", "x")]).2
      [("id", "1")] ("product_id", "1") (by decide)⟩

/-- C7: the code contradicts this claim.  SCHEMA_MAPPINGS maps source field
names to canonical field names, but harmonize_record binds each mapping
entry as (target_field, source_field), so it looks the CANONICAL names up
in the record and emits SOURCE-SPECIFIC keys: a genuine products_v1 record
(keyed product_id, product_name, cost, product_category) harmonizes to the
empty record, while a record keyed by canonical names comes back under
source-specific keys — the opposite of harmonization to the unified
schema. -/
theorem harmonize_mapping_direction_bug :
    harmonize_record (fun v _ => v)
        [("product_id", "1"), ("product_name", "Widget"),
         ("cost", "9.99"), ("product_category", "toys")] "products_v1"
      = [] ∧
    harmonize_record (fun v _ => v)
        [("id", "1"), ("title", "Widget"),
         ("price", "9.99"), ("category", "toys")] "products_v1"
      = [("product_id", "1"), ("product_name", "Widget"),
         ("cost", "9.99"), ("product_category", "toys")] := by
  constructor <;> rfl

/-- C10: harmonize_record is total — it always returns a plain dictionary,
the filterMap of the schema mapping over the record, so mapped fields
absent from the record are silently skipped; and an unrecognized
source_schema yields the empty mapping and hence the empty harmonized
record. -/
theorem harmonize_record_total {α : Type}
    (transform_value : α → String → α) (record : List (String × α))
    (source_schema : String) :
    harmonize_record transform_value record source_schema
      = harmonize_spec transform_value record source_schema ∧
    (SCHEMA_MAPPINGS.lookup source_schema = none →
      harmonize_record transform_value record source_schema = []) := by
  refine ⟨harmonize_record_eq_spec transform_value record source_schema, ?_⟩
  intro hnone
  rw [harmonize_record_eq_spec]
  simp [harmonize_spec, hnone]

/-- C10 witness: a concrete unrecognized schema yields the empty harmonized
record. -/
theorem harmonize_record_total_witness :
    SCHEMA_MAPPINGS.lookup "legacy_products" = none ∧
    harmonize_record (fun v _ => v) [("id", "1")] "legacy_products" = [] :=
  ⟨by decide,
    (harmonize_record_total (fun v _ => v) [("id", "1")]
      "legacy_products").2 (by decide)⟩

/-- C3 as stated is false on the code: each stage receives the full
products_batch, so a pair already resolved by the exact stage is considered
again by the fuzzy stage — here a concrete pair with equal sku and equal
title is produced by both Stage 1 and Stage 2. -/
theorem later_stage_reconsiders_resolved_pair_cex :
    ((⟨"api_primary", "p1", "A1", "Widget"⟩ : Product),
        (⟨"api_secondary", "q1", "A1", "Widget"⟩ : Product)) ∈
      find_exact_matches
        [⟨"api_primary", "p1", "A1", "Widget"⟩,
         ⟨"api_secondary", "q1", "A1", "Widget"⟩] ∧
    ((⟨"api_primary", "p1", "A1", "Widget"⟩ : Product),
        (⟨"api_secondary", "q1", "A1", "Widget"⟩ : Product)) ∈
      find_fuzzy_matches (fun _ _ => 1)
        [⟨"api_primary", "p1", "A1", "Widget"⟩,
         ⟨"api_secondary", "q1", "A1", "Widget"⟩] := by
  refine ⟨by decide, List.mem_filter.mpr ⟨by decide, ?_⟩⟩
  exact decide_eq_true threshold_le_one

/-- C3 amended: deduplicate_products runs its stages in the written order
exact, fuzzy, probabilistic and combines their outputs only in
create_master_records, but every stage considers the entire batch: a pair
resolved by the exact stage (equal identity key) is still considered — and
produced again — by the fuzzy stage whenever its similarity reaches the
threshold. -/
theorem stages_consider_full_batch {ε α : Type}
    (create_master_records :
      List (Product × Product) → List (Product × Product) →
      List (Product × Product) → α)
    (sim : Product → Product → ℚ) (score : Product → Product → Except ε ℚ)
    (batch : List Product) (a b : Product)
    (hmem : (a, b) ∈ allPairs batch) (hkey : a.sku = b.sku)
    (hsim : similarity_threshold ≤ sim a b) :
    (a, b) ∈ find_exact_matches batch ∧
    (a, b) ∈ find_fuzzy_matches sim batch ∧
    deduplicate_products create_master_records sim score batch
      = create_master_records (find_exact_matches batch)
          (find_fuzzy_matches sim batch)
          (ml_entity_resolution score sim batch) := by
  refine ⟨List.mem_filter.mpr ⟨hmem, by simp [hkey]⟩,
    List.mem_filter.mpr ⟨hmem, by simp [hsim]⟩, rfl⟩

/-- C3 amended witness: the concrete exact-matched pair above is also
produced by the fuzzy stage of the same deduplication run. -/
theorem stages_consider_full_batch_witness :
    (((⟨"api_primary", "p1", "A1", "Widget"⟩ : Product),
        (⟨"api_secondary", "q1", "A1", "Widget"⟩ : Product)) ∈
      allPairs
        [⟨"api_primary", "p1", "A1", "Widget"⟩,
         (⟨"api_secondary", "q1", "A1", "Widget"⟩ : Product)]) ∧
    (Product.sku ⟨"api_primary", "p1", "A1", "Widget"⟩
      = Product.sku ⟨"api_secondary", "q1", "A1", "Widget"⟩) ∧
    similarity_threshold ≤
      (fun _ _ : Product => (1 : ℚ))
        ⟨"api_primary", "p1", "A1", "Widget"⟩
        ⟨"api_secondary", "q1", "A1", "Widget"⟩ ∧
    ((⟨"api_primary", "p1", "A1", "Widget"⟩ : Product),
        (⟨"api_secondary", "q1", "A1", "Widget"⟩ : Product)) ∈
      find_fuzzy_matches (fun _ _ : Product => (1 : ℚ))
        [⟨"api_primary", "p1", "A1", "Widget"⟩,
         ⟨"api_secondary", "q1", "A1", "Widget"⟩] :=
  ⟨by decide, by decide, threshold_le_one,
    (stages_consider_full_batch (fun e f m => (e, f, m))
      (fun _ _ : Product => (1 : ℚ))
      (fun _ _ => (.ok 1 : Except String ℚ))
      [⟨"api_primary", "p1", "A1", "Widget"⟩,
       ⟨"api_secondary", "q1", "A1", "Widget"⟩]
      ⟨"api_primary", "p1", "A1", "Widget"⟩
      ⟨"api_secondary", "q1", "A1", "Widget"⟩
      (by decide) (by decide) threshold_le_one).2.1⟩

/-- C5: a scoring-capability failure degrades gracefully — for a pair the
scorer fails on, membership in the probabilistic stage output coincides
with membership in the fuzzy stage output (the engine falls back to the
fuzzy-stage result for that pair), and with a scorer that always fails the
probabilistic stage is exactly the fuzzy stage; the stage always returns a
candidate list, so no scoring failure fails the batch. -/
theorem scoring_failure_degrades_to_fuzzy {ε : Type}
    (sim : Product → Product → ℚ) (score : Product → Product → Except ε ℚ)
    (batch : List Product) (a b : Product) (e : ε)
    (herr : score a b = .error e) :
    ((a, b) ∈ ml_entity_resolution score sim batch
      ↔ (a, b) ∈ find_fuzzy_matches sim batch) ∧
    ml_entity_resolution (fun _ _ => (.error e : Except ε ℚ)) sim batch
      = find_fuzzy_matches sim batch := by
  refine ⟨?_, rfl⟩
  simp only [ml_entity_resolution, find_fuzzy_matches, List.mem_filter, herr]

/-- C5 witness: a concrete pair whose scorer times out is matched exactly
when the fuzzy stage matches it. -/
theorem scoring_failure_degrades_to_fuzzy_witness :
    ((fun _ _ : Product => (.error "timeout" : Except String ℚ))
        ⟨"api_primary", "p1", "A1", "Widget"⟩
        ⟨"api_secondary", "q1", "A2", "Widget"⟩ = .error "timeout") ∧
    (((⟨"api_primary", "p1", "A1", "Widget"⟩ : Product),
        (⟨"api_secondary", "q1", "A2", "Widget"⟩ : Product)) ∈
      ml_entity_resolution
        (fun _ _ : Product => (.error "timeout" : Except String ℚ))
        (fun a b : Product => if a.title = b.title then (1 : ℚ) else 0)
        [⟨"api_primary", "p1", "A1", "Widget"⟩,
         ⟨"api_secondary", "q1", "A2", "Widget"⟩]
      ↔ ((⟨"api_primary", "p1", "A1", "Widget"⟩ : Product),
          (⟨"api_secondary", "q1", "A2", "Widget"⟩ : Product)) ∈
        find_fuzzy_matches
          (fun a b : Product => if a.title = b.title then (1 : ℚ) else 0)
          [⟨"api_primary", "p1", "A1", "Widget"⟩,
           ⟨"api_secondary", "q1", "A2", "Widget"⟩]) :=
  ⟨rfl,
    (scoring_failure_degrades_to_fuzzy
      (fun a b : Product => if a.title = b.title then (1 : ℚ) else 0)
      (fun _ _ : Product => (.error "timeout" : Except String ℚ))
      [⟨"api_primary", "p1", "A1", "Widget"⟩,
       ⟨"api_secondary", "q1", "A2", "Widget"⟩]
      ⟨"api_primary", "p1", "A1", "Widget"⟩
      ⟨"api_secondary", "q1", "A2", "Widget"⟩
      "timeout" rfl).1⟩

/-- C4 witness: a concrete two-contributor cluster (the priority-1 primary
record and a priority-2 secondary record) merges to the same title in both
processing orders. -/
theorem merge_field_deterministic_witness :
    (([⟨"api_primary", "1", 1, 100, [("title", "Widget")]⟩,
        ⟨"api_secondary", "2", 2, 200, [("title", "Widget Deluxe")]⟩] :
      List Contribution).Perm
      [⟨"api_secondary", "2", 2, 200, [("title", "Widget Deluxe")]⟩,
       ⟨"api_primary", "1", 1, 100, [("title", "Widget")]⟩]) ∧
    (∀ a ∈ ([⟨"api_primary", "1", 1, 100, [("title", "Widget")]⟩,
        ⟨"api_secondary", "2", 2, 200, [("title", "Widget Deluxe")]⟩] :
          List Contribution),
      ∀ b ∈ ([⟨"api_primary", "1", 1, 100, [("title", "Widget")]⟩,
        ⟨"api_secondary", "2", 2, 200, [("title", "Widget Deluxe")]⟩] :
          List Contribution),
      a.priority = b.priority → a.observed_at = b.observed_at → a = b) ∧
    merge_field
        [⟨"api_primary", "1", 1, 100, [("title", "Widget")]⟩,
         ⟨"api_secondary", "2", 2, 200, [("title", "Widget Deluxe")]⟩] "title"
      = merge_field
          [⟨"api_secondary", "2", 2, 200, [("title", "Widget Deluxe")]⟩,
           ⟨"api_primary", "1", 1, 100, [("title", "Widget")]⟩] "title" :=
  ⟨by decide, by decide,
    (merge_field_deterministic
      [⟨"api_primary", "1", 1, 100, [("title", "Widget")]⟩,
       ⟨"api_secondary", "2", 2, 200, [("title", "Widget Deluxe")]⟩]
      [⟨"api_secondary", "2", 2, 200, [("title", "Widget Deluxe")]⟩,
       ⟨"api_primary", "1", 1, 100, [("title", "Widget")]⟩]
      "title" (by decide) (by decide)).1⟩

end AlphaBridge
